import Mathlib

/-!
Verification of the AutoLoader reader-configuration resolver
(`koheesio/spark/readers/databricks/autoloader.py`).

The embedding models:
* `AutoLoaderFormat` — the enumeration of the 7 supported file formats;
* `validate_format` — the `format` field validator;
* `validate_schema` — the `schema` field validator, parametrised by the
  filesystem (`Path.exists` + `Path.read_text` fused into one partial map
  from paths to file contents) and by the two external deserialisation
  collaborators `json.loads` and `StructType.fromJson`;
* `get_options` — the options merger (Python `dict.update`, modelled on
  insertion-ordered association lists, threading the mutated instance);
* `reader` / `execute` — the builder-call sequence issued against the
  streaming engine, recorded as an explicit call trace.
-/

deriving instance DecidableEq for Except

/-- Errors the Python code can raise. `attributeError` models the
`AttributeError` raised by attribute access on an object lacking the
attribute; `fileNotFoundError` carries the formatted message string;
`jsonError` and `keyError` stand for the errors of the external
deserialisation collaborators. -/
inductive PyError where
  | attributeError
  | fileNotFoundError (msg : String)
  | jsonError
  | keyError
deriving DecidableEq, Repr

/-- The `AutoLoaderFormat` enum: JSON, CSV, PARQUET, AVRO, ORC, TEXT,
BINARYFILE, in declaration order. -/
inductive AutoLoaderFormat where
  | JSON
  | CSV
  | PARQUET
  | AVRO
  | ORC
  | TEXT
  | BINARYFILE
deriving DecidableEq, Repr

namespace AutoLoaderFormat

/-- The `.value` attribute of each enum member. -/
def value : AutoLoaderFormat → String
  | .JSON => "json"
  | .CSV => "csv"
  | .PARQUET => "parquet"
  | .AVRO => "avro"
  | .ORC => "orc"
  | .TEXT => "text"
  | .BINARYFILE => "binaryfile"

/-- Iteration order of `for f in AutoLoaderFormat` (declaration order). -/
def allMembers : List AutoLoaderFormat :=
  [.JSON, .CSV, .PARQUET, .AVRO, .ORC, .TEXT, .BINARYFILE]

/-- `getattr(AutoLoaderFormat, name)`: lookup of an enum member by its
Python attribute name; `none` models the `AttributeError` case. -/
def getattrMember : String → Option AutoLoaderFormat
  | "JSON" => some .JSON
  | "CSV" => some .CSV
  | "PARQUET" => some .PARQUET
  | "AVRO" => some .AVRO
  | "ORC" => some .ORC
  | "TEXT" => some .TEXT
  | "BINARYFILE" => some .BINARYFILE
  | _ => none

end AutoLoaderFormat

/-- The `format` argument as the validator receives it: either a Python
string or an `AutoLoaderFormat` member. -/
inductive FormatInput where
  | strVal (s : String)
  | enumVal (f : AutoLoaderFormat)
deriving DecidableEq, Repr

/-- Python `str.upper` (the format names and their case variants are
ASCII, where Python's and Lean's per-character uppercasing agree). -/
def pyUpper (s : String) : String := String.mk (s.data.map Char.toUpper)

/-- Python `str.lower` on ASCII strings. -/
def pyLower (s : String) : String := String.mk (s.data.map Char.toLower)

/-- The `validate_format` field validator.

Source:
```
if isinstance(format_specified, str):
    if format_specified.upper() in [f.value.upper() for f in AutoLoaderFormat]:
        format_specified = getattr(AutoLoaderFormat, format_specified.upper())
return str(format_specified.value)
```
When the input is a string whose uppercasing matches no member value, the
final line evaluates `.value` on a plain `str`, which raises
`AttributeError`. `str` applied to the enum's `value` (itself a string) is
the identity. -/
def validate_format (format_specified : FormatInput) : Except PyError String :=
  match format_specified with
  | .enumVal f => .ok f.value
  | .strVal s =>
    if (AutoLoaderFormat.allMembers.map (fun f => pyUpper f.value)).contains (pyUpper s) then
      match AutoLoaderFormat.getattrMember (pyUpper s) with
      | some f => .ok f.value
      | none => .error .attributeError
    else
      .error .attributeError

/-- A structural schema object (`pyspark.sql.types.StructType`): the parts
of it the resolver touches — it is only constructed, compared, and passed
along, so a field list with names suffices. -/
structure StructTy where
  fields : List (String × String)
deriving DecidableEq, Repr

/-- A JSON value, the output type of `json.loads`. -/
inductive Json where
  | null
  | bool (b : Bool)
  | num (n : Int)
  | str (s : String)
  | arr (xs : List Json)
  | obj (kvs : List (String × Json))

/-- The `schema` argument as the validator receives it: a `StructType`, a
path (a `str` or `pathlib.Path`, rendered as its path string), or `None`. -/
inductive SchemaInput where
  | structType (st : StructTy)
  | pathStr (p : String)
  | absent
deriving DecidableEq, Repr

/-- The `validate_schema` field validator.

`fs` models the filesystem: `fs p = some text` iff `Path(p).exists()` and
`Path(p).read_text() == text`; `fs p = none` iff the path does not exist.
`json_loads` and `fromJson` model the external collaborators `json.loads`
and `StructType.fromJson`, whose failures propagate uncaught.

Source:
```
if isinstance(schema, StructType): return schema
if schema is not None:
    schema_path = Path(schema)
    if schema_path.exists(): schema = schema_path.read_text()
    else: raise FileNotFoundError(f"Schema file not found at path {schema}")
    schema = StructType.fromJson(json.loads(schema))
return schema
``` -/
def validate_schema (fs : String → Option String)
    (json_loads : String → Except PyError Json)
    (fromJson : Json → Except PyError StructTy)
    (schema_specified : SchemaInput) : Except PyError (Option StructTy) :=
  match schema_specified with
  | .structType st => .ok (some st)
  | .absent => .ok none
  | .pathStr p =>
    match fs p with
    | some text =>
      match json_loads text with
      | .ok j =>
        match fromJson j with
        | .ok st => .ok (some st)
        | .error e => .error e
      | .error e => .error e
    | none => .error (.fileNotFoundError ("Schema file not found at path " ++ p))

/-- Python `dict` as an insertion-ordered association list (Python dicts
preserve insertion order and hold each key at most once; `setKey` keeps
that shape). -/
abbrev PyDict := List (String × String)

/-- `d[k] = v` on an insertion-ordered dict: replace the value in place if
the key is present, else append the binding at the end. One step of
`dict.update`. -/
def setKey : PyDict → String → String → PyDict
  | [], k, v => [(k, v)]
  | kv :: rest, k, v =>
    if kv.1 = k then (k, v) :: rest else kv :: setKey rest k v

/-- `d.get(k)`: first binding of `k`, if any. -/
def getKey : PyDict → String → Option String
  | [], _ => none
  | kv :: rest, k => if kv.1 = k then some kv.2 else getKey rest k

/-- The `AutoLoader` instance after pydantic validation: `format` holds the
validator's output string, `schema` the resolver's output. -/
structure AutoLoader where
  format : String
  location : String
  schema_location : String
  options : PyDict
  schema : Option StructTy
deriving DecidableEq, Repr

/-- Construction of an `AutoLoader`: the field validators run on the raw
inputs and any error aborts construction. -/
def mkAutoLoader (fs : String → Option String)
    (json_loads : String → Except PyError Json)
    (fromJson : Json → Except PyError StructTy)
    (format : FormatInput) (location schema_location : String)
    (options : PyDict) (schema : SchemaInput) : Except PyError AutoLoader := do
  let f ← validate_format format
  let st ← validate_schema fs json_loads fromJson schema
  pure { format := f, location := location, schema_location := schema_location,
         options := options, schema := st }

/-- `get_options`: `self.options.update({"cloudFiles.format": self.format,
"cloudFiles.schemaLocation": self.schema_location})` then
`return self.options`. The update mutates the instance's dict in place, so
the model returns the updated instance together with the returned dict,
which is that instance's `options` field itself. -/
def get_options (self : AutoLoader) : AutoLoader × PyDict :=
  let merged :=
    setKey (setKey self.options "cloudFiles.format" self.format)
      "cloudFiles.schemaLocation" self.schema_location
  ({ self with options := merged }, merged)

/-- One builder call on the engine's `DataStreamReader`. -/
inductive ReaderCall where
  | format (s : String)
  | schema (st : StructTy)
  | options (opts : PyDict)
  | load (loc : String)
deriving DecidableEq, Repr

/-- `reader`: `spark.readStream.format("cloudFiles")`, then
`.schema(self.schema)` only when `self.schema is not None`, then
`.options(**self.get_options())`. Recorded as the trace of builder calls;
the instance is threaded because `get_options` mutates it. -/
def reader (self : AutoLoader) : AutoLoader × List ReaderCall :=
  let schemaCalls : List ReaderCall :=
    match self.schema with
    | some st => [.schema st]
    | none => []
  let (self1, opts) := get_options self
  (self1, .format "cloudFiles" :: schemaCalls ++ [.options opts])

/-- `execute`: `self.output.df = self.reader().load(self.location)`. -/
def execute (self : AutoLoader) : AutoLoader × List ReaderCall :=
  let (self1, calls) := reader self
  (self1, calls ++ [.load self.location])

/-! ## Dictionary lemmas -/

theorem getKey_setKey_same (d : PyDict) (k v : String) :
    getKey (setKey d k v) k = some v := by
  induction d with
  | nil => simp [setKey, getKey]
  | cons kv rest ih =>
    by_cases h : kv.1 = k
    · simp [setKey, getKey, h]
    · simp [setKey, getKey, h, ih]

theorem getKey_setKey_other (d : PyDict) (k k' v : String) (h : k' ≠ k) :
    getKey (setKey d k v) k' = getKey d k' := by
  induction d with
  | nil => simp [setKey, getKey, Ne.symm h]
  | cons kv rest ih =>
    by_cases hk : kv.1 = k
    · have hkk' : ¬ kv.1 = k' := by rw [hk]; exact Ne.symm h
      simp [setKey, getKey, hk, hkk', Ne.symm h]
    · simp [setKey, getKey, hk, ih]

/-! ## Claim theorems -/

/-- C1 counterexample: the string "xml" matches none of the 7 format
names case-insensitively, yet `validate_format` does not return "xml"
unchanged — it raises `AttributeError` (the source evaluates
`format_specified.value` on a plain `str`). -/
theorem validate_format_passthrough_counterexample :
    ((AutoLoaderFormat.allMembers.map (fun f => pyUpper f.value)).contains
        (pyUpper "xml") = false) ∧
    validate_format (.strVal "xml") = .error .attributeError ∧
    validate_format (.strVal "xml") ≠ .ok "xml" := by
  decide

/-- C1 (amended): for every string input that does not case-insensitively
match one of the 7 known format names, the validator raises
`AttributeError` (from `.value` on a plain string); the string is not
passed through. -/
theorem validate_format_unmatched_raises (s : String)
    (h : (AutoLoaderFormat.allMembers.map (fun f => pyUpper f.value)).contains
        (pyUpper s) = false) :
    validate_format (.strVal s) = .error .attributeError := by
  simp only [validate_format, h]
  rfl

/-- C1 witness: the amended statement at the concrete unmatched input
"delta". -/
theorem validate_format_unmatched_raises_witness :
    ((AutoLoaderFormat.allMembers.map (fun f => pyUpper f.value)).contains
        (pyUpper "delta") = false) ∧
    validate_format (.strVal "delta") = .error .attributeError :=
  ⟨by decide, validate_format_unmatched_raises "delta" (by decide)⟩

/-- C2: an enum member, or a string equal to one of the 7 format names up
to letter-case, validates to that member's canonical lowercase string. -/
theorem validate_format_canonicalizes (f : AutoLoaderFormat) (input : FormatInput)
    (h : input = .enumVal f ∨ ∃ s, input = .strVal s ∧ pyUpper s = pyUpper f.value) :
    validate_format input = .ok f.value ∧ pyLower f.value = f.value := by
  rcases h with h | ⟨s, rfl, hs⟩
  · subst h
    exact ⟨rfl, by cases f <;> decide⟩
  · cases f <;>
      · simp only [AutoLoaderFormat.value] at hs ⊢
        simp only [validate_format, hs]
        exact ⟨by decide, by decide⟩

/-- C2 witness: the mixed-case string "Json" normalizes to "json". -/
theorem validate_format_canonicalizes_witness :
    validate_format (.strVal "Json") = .ok (AutoLoaderFormat.value .JSON) ∧
    pyLower (AutoLoaderFormat.value .JSON) = AutoLoaderFormat.value .JSON :=
  validate_format_canonicalizes .JSON (.strVal "Json")
    (Or.inr ⟨"Json", rfl, by decide⟩)

/-- C3: after merging, the options mapping binds `cloudFiles.format` to the
validated format string and `cloudFiles.schemaLocation` to the configured
schema location, for every instance — in particular whatever the caller
put under those keys in `options` is discarded. -/
theorem get_options_sets_mandatory_keys (a : AutoLoader) :
    getKey (get_options a).2 "cloudFiles.format" = some a.format ∧
    getKey (get_options a).2 "cloudFiles.schemaLocation" = some a.schema_location := by
  refine ⟨?_, ?_⟩
  · show getKey (setKey (setKey a.options "cloudFiles.format" a.format)
        "cloudFiles.schemaLocation" a.schema_location) "cloudFiles.format" = some a.format
    rw [getKey_setKey_other _ _ _ _ (by decide)]
    exact getKey_setKey_same _ _ _
  · exact getKey_setKey_same _ _ _

/-- C4: when the path does not exist on the filesystem, `validate_schema`
fails with `FileNotFoundError` whose message carries the exact given path
string, and produces no schema object. -/
theorem validate_schema_missing_path (fs : String → Option String)
    (json_loads : String → Except PyError Json)
    (fromJson : Json → Except PyError StructTy) (p : String)
    (h : fs p = none) :
    validate_schema fs json_loads fromJson (.pathStr p) =
      .error (.fileNotFoundError ("Schema file not found at path " ++ p)) := by
  simp [validate_schema, h]

/-- C4 witness: a concrete filesystem on which "/tmp/schema.json" does not
exist. -/
theorem validate_schema_missing_path_witness :
    ((fun _ => (none : Option String)) "/tmp/schema.json" = none) ∧
    validate_schema (fun _ => none) (fun _ => .error .jsonError)
      (fun _ => .error .keyError) (.pathStr "/tmp/schema.json") =
      .error (.fileNotFoundError ("Schema file not found at path " ++ "/tmp/schema.json")) :=
  ⟨rfl, validate_schema_missing_path _ _ _ _ rfl⟩

/-- C5: when the path exists with content `text`, `json.loads text`
succeeds with `j`, and `StructType.fromJson j` succeeds with `st`, the
resolver returns exactly `st` — the direct deserialization of the file's
full text. -/
theorem validate_schema_deserializes_existing_file (fs : String → Option String)
    (json_loads : String → Except PyError Json)
    (fromJson : Json → Except PyError StructTy) (p text : String) (j : Json)
    (st : StructTy)
    (hfs : fs p = some text) (hjl : json_loads text = .ok j)
    (hfj : fromJson j = .ok st) :
    validate_schema fs json_loads fromJson (.pathStr p) = .ok (some st) := by
  simp [validate_schema, hfs, hjl, hfj]

/-- C5 witness: a one-file filesystem holding an empty-struct JSON schema,
with concrete deserializers. -/
theorem validate_schema_deserializes_existing_file_witness :
    validate_schema
      (fun p => if p = "schema.json" then
          some "\x7b\"fields\": [], \"type\": \"struct\"\x7d" else none)
      (fun t => if t = "\x7b\"fields\": [], \"type\": \"struct\"\x7d" then
          .ok (.obj [("fields", .arr []), ("type", .str "struct")])
        else .error .jsonError)
      (fun j => match j with
        | .obj [("fields", Json.arr []), ("type", Json.str "struct")] =>
            .ok (StructTy.mk [])
        | _ => .error .keyError)
      (.pathStr "schema.json") = .ok (some (StructTy.mk [])) :=
  validate_schema_deserializes_existing_file _ _ _ "schema.json"
    "\x7b\"fields\": [], \"type\": \"struct\"\x7d"
    (.obj [("fields", .arr []), ("type", .str "struct")]) (StructTy.mk [])
    rfl rfl rfl

/-- C6: on `None` the resolver returns `None`, and on a `StructType` it
returns it unchanged; in both cases the result is independent of the
filesystem (and of the deserializers), i.e. no filesystem access occurs. -/
theorem validate_schema_pure_for_none_and_structtype
    (fs fs' : String → Option String)
    (jl jl' : String → Except PyError Json)
    (fj fj' : Json → Except PyError StructTy) (st : StructTy) :
    validate_schema fs jl fj .absent = .ok none ∧
    validate_schema fs jl fj (.structType st) = .ok (some st) ∧
    validate_schema fs jl fj .absent = validate_schema fs' jl' fj' .absent ∧
    validate_schema fs jl fj (.structType st) =
      validate_schema fs' jl' fj' (.structType st) :=
  ⟨rfl, rfl, rfl, rfl⟩

/-- C7: the end-to-end CSV scenario: construction validates "CSV" to
"csv", the merged options are exactly the caller's `multiLine` entry plus
the two mandatory keys, and `execute` issues
format("cloudFiles") / options(...) / load("s3://bucket/in") with no
schema call. -/
theorem end_to_end_csv_scenario :
    ∃ a : AutoLoader,
      mkAutoLoader (fun _ => none) (fun _ => .error .jsonError)
          (fun _ => .error .keyError) (.strVal "CSV") "s3://bucket/in"
          "s3://bucket/schema" [("multiLine", "true")] .absent = .ok a ∧
      (get_options a).2 = [("multiLine", "true"), ("cloudFiles.format", "csv"),
        ("cloudFiles.schemaLocation", "s3://bucket/schema")] ∧
      (execute a).2 = [.format "cloudFiles",
        .options [("multiLine", "true"), ("cloudFiles.format", "csv"),
          ("cloudFiles.schemaLocation", "s3://bucket/schema")],
        .load "s3://bucket/in"] ∧
      ∀ st, ReaderCall.schema st ∉ (execute a).2 := by
  refine ⟨AutoLoader.mk "csv" "s3://bucket/in" "s3://bucket/schema"
      [("multiLine", "true")] none, by decide, by decide, by decide, ?_⟩
  intro st hmem
  have h3 : (execute (AutoLoader.mk "csv" "s3://bucket/in" "s3://bucket/schema"
      [("multiLine", "true")] none)).2 = [.format "cloudFiles",
        .options [("multiLine", "true"), ("cloudFiles.format", "csv"),
          ("cloudFiles.schemaLocation", "s3://bucket/schema")],
        .load "s3://bucket/in"] := by decide
  rw [h3] at hmem
  simp at hmem

/-- C8: with a resolved schema present, the builder-call trace is exactly
source-type selection, then schema attachment, then application of the
merged options, then the load at the configured location; with the schema
absent, the trace contains no schema call. -/
theorem execute_call_order (a : AutoLoader) :
    (∀ st, a.schema = some st →
      (execute a).2 = [ReaderCall.format "cloudFiles", ReaderCall.schema st,
        ReaderCall.options (get_options a).2, ReaderCall.load a.location]) ∧
    (a.schema = none →
      (execute a).2 = [ReaderCall.format "cloudFiles",
        ReaderCall.options (get_options a).2, ReaderCall.load a.location] ∧
      ∀ st, ReaderCall.schema st ∉ (execute a).2) := by
  constructor
  · intro st h
    simp [execute, reader, h]
  · intro h
    refine ⟨by simp [execute, reader, h], ?_⟩
    intro st hmem
    simp [execute, reader, h] at hmem

/-- C8 witness: both branches at concrete instances, one with an
empty-field schema attached and one with no schema. -/
theorem execute_call_order_witness :
    ((execute (AutoLoader.mk "json" "loc" "sloc" [] (some (StructTy.mk [])))).2 =
      [ReaderCall.format "cloudFiles", ReaderCall.schema (StructTy.mk []),
        ReaderCall.options
          (get_options (AutoLoader.mk "json" "loc" "sloc" [] (some (StructTy.mk [])))).2,
        ReaderCall.load "loc"]) ∧
    ((execute (AutoLoader.mk "json" "loc" "sloc" [] none)).2 =
      [ReaderCall.format "cloudFiles",
        ReaderCall.options (get_options (AutoLoader.mk "json" "loc" "sloc" [] none)).2,
        ReaderCall.load "loc"] ∧
      ∀ st, ReaderCall.schema st ∉ (execute (AutoLoader.mk "json" "loc" "sloc" [] none)).2) :=
  ⟨(execute_call_order _).1 (StructTy.mk []) rfl, (execute_call_order _).2 rfl⟩

/-- C9: `get_options` mutates the instance in place: the instance's
`options` field after the call is the very mapping returned, so the merge
is visible through the attribute, which now binds the two mandatory
keys. -/
theorem get_options_mutates_in_place (a : AutoLoader) :
    (get_options a).1.options = (get_options a).2 ∧
    getKey (get_options a).1.options "cloudFiles.format" = some a.format ∧
    getKey (get_options a).1.options "cloudFiles.schemaLocation" = some a.schema_location := by
  refine ⟨rfl, ?_, ?_⟩
  · show getKey (setKey (setKey a.options "cloudFiles.format" a.format)
        "cloudFiles.schemaLocation" a.schema_location) "cloudFiles.format" = some a.format
    rw [getKey_setKey_other _ _ _ _ (by decide)]
    exact getKey_setKey_same _ _ _
  · exact getKey_setKey_same _ _ _

/-- C10: every key other than the two mandatory ones keeps exactly its
caller-supplied binding through the merge. -/
theorem get_options_preserves_other_keys (a : AutoLoader) (k : String)
    (h1 : k ≠ "cloudFiles.format") (h2 : k ≠ "cloudFiles.schemaLocation") :
    getKey (get_options a).2 k = getKey a.options k := by
  show getKey (setKey (setKey a.options "cloudFiles.format" a.format)
      "cloudFiles.schemaLocation" a.schema_location) k = getKey a.options k
  rw [getKey_setKey_other _ _ _ _ h2, getKey_setKey_other _ _ _ _ h1]

/-- C10 witness: the caller's `multiLine` binding survives the merge on a
concrete instance. -/
theorem get_options_preserves_other_keys_witness :
    ("multiLine" ≠ "cloudFiles.format") ∧
    ("multiLine" ≠ "cloudFiles.schemaLocation") ∧
    getKey (get_options (AutoLoader.mk "csv" "loc" "sloc"
        [("multiLine", "true")] none)).2 "multiLine" =
      getKey [("multiLine", "true")] "multiLine" :=
  ⟨by decide, by decide,
    get_options_preserves_other_keys _ "multiLine" (by decide) (by decide)⟩
